import Mathlib

/-!
# Faucet of the relayer (`relayer/faucet.go`)

A shallow embedding of the faucet request pipeline: the per-address rate
limiter `checkAddress`, the send path `faucetSend` / `SendMsgWithKey` /
`BuildAndSignTxWithKey`, and the HTTP handler `FaucetHandler`.

Conventions of the embedding.

* A Go `error` is represented by its message (`err.Error()`); a nil error is
  `none`.
* `time.Time` is a clock reading in nanoseconds (`Int`); `time.Duration` is a
  64-bit signed nanosecond count, kept as an `Int` with the wrap-around of
  Go's `-` and the saturation of `Time.Sub` written out.
* Everything the file calls but does not define (the keybase, the account
  retriever, the transaction builder, the broadcaster, JSON decoding, string
  renderings of library types) is a field of `Env`; each such call is taken
  to return.
* Side effects are recorded, in program order, in a list of `Event`s.
-/

namespace Relayer

/-! ## Time -/

/-- A reading of the clock, in nanoseconds. -/
abbrev Time := Int

/-- Go `time.Duration`: a signed 64-bit count of nanoseconds. -/
abbrev Duration := Int

/-- Smallest `time.Duration`. -/
def minDuration : Duration := -(2 ^ 63)

/-- Largest `time.Duration`. -/
def maxDuration : Duration := 2 ^ 63 - 1

/-- Go `time.Second`. -/
def Second : Duration := 1000000000

/-- Go `time.Minute`. -/
def Minute : Duration := 60 * Second

/-- Two's-complement wrap-around of a 64-bit signed integer. -/
def wrap64 (x : Int) : Int := (x + 2 ^ 63) % 2 ^ 64 - 2 ^ 63

/-- Go `a - b` on two `time.Duration`s. -/
def durationSub (a b : Duration) : Duration := wrap64 (a - b)

/-- Go `t.Sub(u)`: the difference of two readings, saturated to the range of
`time.Duration`. -/
def timeSub (t u : Time) : Duration :=
  if t - u < minDuration then minDuration
  else if maxDuration < t - u then maxDuration
  else t - u

/-- Go `time.Since(val)` when the clock reads `now`. -/
def timeSince (now val : Time) : Duration := timeSub now val

/-! ## Data -/

/-- Go `sdk.AccAddress`: a byte string. -/
abbrev AccAddress := List Nat

/-- Go `sdk.Coin`. -/
structure Coin where
  denom : String
  amount : Int
deriving DecidableEq, Repr

/-- Go `FaucetRequest`. -/
structure FaucetRequest where
  ChainID : String
  Address : String
deriving DecidableEq, Repr

/-- Go `sdk.TxResponse`, the fields the faucet reads. -/
structure TxResponse where
  Code : Nat
  Codespace : String
  RawLog : String
  TxHash : String
deriving DecidableEq, Repr

/-- Zero value of `sdk.TxResponse` (the named result `res` before assignment). -/
def TxResponse.zero : TxResponse := ⟨0, "", "", ""⟩

/-- Go `bank.MsgSend`. -/
structure MsgSend where
  fromAddr : AccAddress
  toAddr : AccAddress
  amount : List Coin
deriving DecidableEq, Repr

/-- Go `bank.NewMsgSend`. -/
def NewMsgSend (fromAddr toAddr : AccAddress) (amount : List Coin) : MsgSend :=
  ⟨fromAddr, toAddr, amount⟩

/-- Result of a keybase lookup: `info.GetName()` and `info.GetAddress()`. -/
structure KeyInfo where
  name : String
  address : AccAddress
deriving DecidableEq, Repr

/-- Account state returned by the account retriever. -/
structure Account where
  accountNumber : Nat
  sequence : Nat
deriving DecidableEq, Repr

/-- Arguments of `auth.NewTxBuilder` as passed by `BuildAndSignTxWithKey`. -/
structure TxBuilder where
  accountNumber : Nat
  sequence : Nat
  gas : Nat
  gasAdjustment : Rat
  simulateAndExecute : Bool
  chainID : String
  memo : String
  fees : List Coin
  gasPrices : String
deriving DecidableEq, Repr

/-- Value built by `sdkerrors.New codespace code desc`. -/
structure SdkError where
  codespace : String
  code : Nat
  desc : String
deriving DecidableEq, Repr

/-- Go `sdkerrors.New`. -/
def sdkerrorsNew (codespace : String) (code : Nat) (desc : String) : SdkError :=
  ⟨codespace, code, desc⟩

/-- The part of `Chain` the faucet touches: the configuration fields and the
rate-limit map `faucetAddrs` (address to time of last admitted request), an
initialised Go map, here a lookup function. `GasAdjustment`
(a `float64`) and the gas prices are only handed on to the builder. -/
structure Chain where
  ChainID : String
  Gas : Nat
  GasAdjustment : Rat
  Memo : String
  gasPrices : String
  faucetAddrs : String → Option Time

/-- Go `src.faucetAddrs[addr] = t`. -/
def Chain.setAddr (c : Chain) (addr : String) (t : Time) : Chain :=
  { c with faucetAddrs := fun k => if k = addr then some t else c.faucetAddrs k }

/-- What the faucet calls and this file does not define. -/
structure Env where
  /-- `json.Unmarshal(byt, &fr)`: the decoded request, or the error. -/
  unmarshal : String → Except String FaucetRequest
  /-- `Duration.String()`. -/
  durationString : Duration → String
  /-- `Coin.String()`. -/
  coinString : Coin → String
  /-- `%v` of the error built by `sdkerrors.New`, i.e. its `Error()`. -/
  sdkErrorString : SdkError → String
  /-- `sdk.NewCoins`: the coin set made of the given coins. -/
  newCoins : List Coin → List Coin
  /-- `sdk.AccAddressFromBech32` with its error dropped, as in `fr.addr()`. -/
  accAddressFromBech32 : String → AccAddress
  /-- `src.Keybase.KeyByAddress`. -/
  keyByAddress : AccAddress → Except String KeyInfo
  /-- `src.Keybase.Key`. -/
  key : String → Except String KeyInfo
  /-- `auth.NewAccountRetriever(src.Cdc, src).GetAccount`. -/
  getAccount : AccAddress → Except String Account
  /-- `TxBuilder.WithKeybase(src.Keybase).BuildAndSign name ckeys.DefaultKeyPass msgs`. -/
  buildAndSign : TxBuilder → String → List MsgSend → Except String (List Nat)
  /-- `src.BroadcastTxCommit`: a response together with a possibly nil error. -/
  broadcastTxCommit : List Nat → TxResponse × Option String

/-- Body of a response written by `respondWithJSON`. -/
inductive Payload where
  | error (message : String)
  | success (Address : String) (Amount : String)
deriving DecidableEq, Repr

/-- Status code and body handed to `respondWithJSON`. -/
structure Response where
  status : Nat
  payload : Payload
deriving DecidableEq, Repr

/-- Observable side effects, in program order. -/
inductive Event where
  | log (s : String)
  | logError (s : String)
  | record (addr : String) (t : Time)
  | useSDKContext
  | keyByAddress (a : AccAddress)
  | key (name : String)
  | getAccount (a : AccAddress)
  | buildAndSign (b : TxBuilder) (name : String) (msgs : List MsgSend)
  | broadcast (tx : List Nat)
deriving DecidableEq, Repr

/-- True of the events that build or broadcast a transaction. -/
def Event.isTx : Event → Bool
  | .buildAndSign _ _ _ => true
  | .broadcast _ => true
  | _ => false

/-! ## HTTP status codes -/

def StatusCreated : Nat := 201
def StatusBadRequest : Nat := 400
def StatusTooManyRequests : Nat := 429
def StatusInternalServerError : Nat := 500
def StatusBadGateway : Nat := 502

/-! ## The rate limiter -/

/-- Local `faucetTimeout := 5 * time.Minute` of `checkAddress`. -/
def faucetTimeout : Duration := 5 * Minute

/-- Result of `checkAddress`: the chain afterwards, the returned duration and
error, and the side effects. -/
structure CheckResult where
  chain : Chain
  wait : Duration
  err : Option String
  trace : List Event

/-- Go `checkAddress`. `tSince` is the clock reading taken by `time.Since`
(line 117) and `tNow` the one taken by `time.Now()` (line 123). -/
def checkAddress (env : Env) (src : Chain) (addr : String) (tSince tNow : Time) :
    CheckResult :=
  let granted : CheckResult :=
    { chain := src.setAddr addr tNow, wait := 1 * Second, err := none,
      trace := [Event.record addr tNow] }
  match src.faucetAddrs addr with
  | some val =>
    let sinceLastRequest := timeSince tSince val
    if faucetTimeout > sinceLastRequest then
      let wait := durationSub faucetTimeout sinceLastRequest
      { chain := src, wait := wait,
        err := some (addr ++ " has requested funds within the last "
          ++ env.durationString faucetTimeout ++ ", wait "
          ++ env.durationString wait ++ " before trying again"),
        trace := [] }
    else granted
  | none => granted

/-! ## Building, signing and sending -/

/-- Go `BuildAndSignTxWithKey`: the signed bytes or the error, and the side
effects. -/
def BuildAndSignTxWithKey (env : Env) (src : Chain) (datagram : List MsgSend)
    (keyName : String) : Except String (List Nat) × List Event :=
  match env.key keyName with
  | .error e => (.error e, [Event.key keyName])
  | .ok info =>
    match env.getAccount info.address with
    | .error e =>
      (.error e, [Event.key keyName, Event.useSDKContext, Event.getAccount info.address])
    | .ok acc =>
      let b : TxBuilder :=
        { accountNumber := acc.accountNumber, sequence := acc.sequence,
          gas := src.Gas, gasAdjustment := src.GasAdjustment,
          simulateAndExecute := false, chainID := src.ChainID, memo := src.Memo,
          fees := [], gasPrices := src.gasPrices }
      (env.buildAndSign b info.name datagram,
        [Event.key keyName, Event.useSDKContext, Event.getAccount info.address,
         Event.buildAndSign b info.name datagram])

/-- Go `SendMsgWithKey`: the pair `(res, err)` and the side effects. -/
def SendMsgWithKey (env : Env) (src : Chain) (datagram : MsgSend) (keyName : String) :
    (TxResponse × Option String) × List Event :=
  match BuildAndSignTxWithKey env src [datagram] keyName with
  | (.error e, tr) => ((TxResponse.zero, some e), tr)
  | (.ok out, tr) => (env.broadcastTxCommit out, tr ++ [Event.broadcast out])

/-- Go `faucetSend`: the returned error and the side effects. -/
def faucetSend (env : Env) (src : Chain) (fromAddr toAddr : AccAddress) (amount : Coin) :
    Option String × List Event :=
  match env.keyByAddress fromAddr with
  | .error e => (some e, [Event.keyByAddress fromAddr])
  | .ok info =>
    match SendMsgWithKey env src (NewMsgSend fromAddr toAddr (env.newCoins [amount]))
        info.name with
    | ((res, err), tr) =>
      if err ≠ none ∨ res.Code ≠ 0 then
        (some ("failed to send transaction: "
            ++ env.sdkErrorString (sdkerrorsNew res.Codespace res.Code res.RawLog) ++ "\n"),
          Event.keyByAddress fromAddr :: tr)
      else (none, Event.keyByAddress fromAddr :: tr)

/-! ## The handler -/

/-- Go `respondWithJSON`: the status code and the payload that is marshalled
into the body (the content type is always `application/json`). -/
def respondWithJSON (code : Nat) (payload : Payload) : Response :=
  ⟨code, payload⟩

/-- Go `respondWithError`. -/
def respondWithError (code : Nat) (message : String) : Response :=
  respondWithJSON code (Payload.error message)

/-- Go `FaucetRequest.addr`. -/
def FaucetRequest.addr (env : Env) (fr : FaucetRequest) : AccAddress :=
  env.accAddressFromBech32 fr.Address

/-- Outcome of one run of the handler. -/
structure HandlerResult where
  chain : Chain
  response : Response
  trace : List Event

/-- Go closure returned by `FaucetHandler fromKey amount`, run on one request.
`body` is the result of `ioutil.ReadAll(r.Body)`; `tSince` and `tNow` are the
clock readings available to `checkAddress`. -/
def FaucetHandler (env : Env) (src : Chain) (fromKey : AccAddress) (amount : Coin)
    (body : Except String String) (tSince tNow : Time) : HandlerResult :=
  let hello := Event.log "handling faucet request..."
  match body with
  | .error _ =>
    let str := "Failed to read request body"
    { chain := src, response := respondWithError StatusBadGateway str,
      trace := [hello, Event.logError str] }
  | .ok byt =>
    match env.unmarshal byt with
    | .error _ =>
      let str := "Failed to unmarshal request payload: " ++ byt
      { chain := src, response := respondWithError StatusBadRequest str,
        trace := [hello, Event.log str] }
    | .ok fr =>
      if fr.ChainID ≠ src.ChainID then
        let str := "Invalid chain id: exp(" ++ src.ChainID ++ ") got(" ++ fr.ChainID ++ ")"
        { chain := src, response := respondWithError StatusBadRequest str,
          trace := [hello, Event.log str] }
      else
        let chk := checkAddress env src fr.Address tSince tNow
        match chk.err with
        | some e =>
          { chain := chk.chain,
            response := respondWithError StatusTooManyRequests e,
            trace := [hello] ++ chk.trace ++
              [Event.log (fr.Address ++ " hit rate limit, needs to wait "
                ++ env.durationString chk.wait)] }
        | none =>
          match faucetSend env chk.chain fromKey (fr.addr env) amount with
          | (some e, tr) =>
            { chain := chk.chain,
              response := respondWithError StatusInternalServerError e,
              trace := [hello] ++ chk.trace ++ [Event.useSDKContext] ++ tr
                ++ [Event.logError e] }
          | (none, tr) =>
            { chain := chk.chain,
              response := respondWithJSON StatusCreated
                (Payload.success fr.Address (env.coinString amount)),
              trace := [hello] ++ chk.trace ++ [Event.useSDKContext] ++ tr
                ++ [Event.log (fr.Address ++ " was sent " ++ env.coinString amount
                  ++ " successfully")] }

/-! ## Auxiliary definitions for the statements -/

/-- The message `faucetSend` hands to `SendMsgWithKey`. -/
def faucetMsg (env : Env) (fromAddr toAddr : AccAddress) (amount : Coin) : MsgSend :=
  NewMsgSend fromAddr toAddr (env.newCoins [amount])

/-- The result of `checkAddress` on the admitting path. -/
def admitted (src : Chain) (addr : String) (tNow : Int) : CheckResult :=
  { chain := src.setAddr addr tNow, wait := 1 * Second, err := none,
    trace := [Event.record addr tNow] }

/-- The `Error()` method of the cosmos-sdk error type (package `types/errors`,
an imported library): it returns the description and nothing else. -/
def cosmosErrorString (e : SdkError) : String := e.desc

/-- A request body naming chain `test-1` and address `cosmos1abc`. -/
def sampleBody : String :=
  "\x7b\"chain-id\":\"test-1\",\"address\":\"cosmos1abc\"\x7d"

/-- A request body naming another chain. -/
def otherChainBody : String :=
  "\x7b\"chain-id\":\"test-2\",\"address\":\"cosmos1abc\"\x7d"

/-- A concrete environment: a decoder that knows the two sample bodies, a
keybase holding the key `faucet`, and a node that accepts every transaction. -/
def sampleEnv : Env where
  unmarshal := fun s =>
    if s = sampleBody then .ok ⟨"test-1", "cosmos1abc"⟩
    else if s = otherChainBody then .ok ⟨"test-2", "cosmos1abc"⟩
    else .error "invalid character"
  durationString := fun d => toString (d / 1000000000) ++ "s"
  coinString := fun c => toString c.amount ++ c.denom
  newCoins := fun cs => cs.filter (fun c => c.amount ≠ 0)
  sdkErrorString := cosmosErrorString
  accAddressFromBech32 := fun s => s.toList.map Char.toNat
  keyByAddress := fun a => .ok ⟨"faucet", a⟩
  key := fun n => if n = "faucet" then .ok ⟨"faucet", [1, 2, 3]⟩ else .error "key not found"
  getAccount := fun _ => .ok ⟨7, 42⟩
  buildAndSign := fun b _ _ => .ok [b.accountNumber, b.sequence]
  broadcastTxCommit := fun _ => (⟨0, "", "", "ABCD"⟩, none)

/-- The sample environment with a node that rejects the transaction on chain. -/
def rejectingEnv : Env :=
  { sampleEnv with
    broadcastTxCommit := fun _ => (⟨5, "sdk", "insufficient funds", ""⟩, none) }

/-- The sample environment with a node that cannot be reached. -/
def unreachableEnv : Env :=
  { sampleEnv with
    broadcastTxCommit := fun _ => (TxResponse.zero, some "connection refused") }

/-- The sample environment with a keybase that does not hold the faucet key. -/
def noKeyEnv : Env :=
  { sampleEnv with keyByAddress := fun _ => .error "key not found" }

/-- A chain `test-1` whose rate-limit map is empty. -/
def sampleChain : Chain :=
  { ChainID := "test-1", Gas := 200000, GasAdjustment := 1, Memo := "", gasPrices := "",
    faucetAddrs := fun _ => none }

/-- The sample chain after `cosmos1abc` was admitted at reading 100. -/
def limitedChain : Chain := sampleChain.setAddr "cosmos1abc" 100

/-- The funding coin of the samples. -/
def sampleCoin : Coin := ⟨"uatom", 1000⟩

/-- True when `sub` occurs in `s` as a contiguous substring. -/
def containsText (s sub : String) : Prop := sub.data <:+: s.data

instance (s sub : String) : Decidable (containsText s sub) := by
  unfold containsText; infer_instance

/-! ## Arithmetic of the cooldown window -/

theorem faucetTimeout_eq : faucetTimeout = 300000000000 := by
  norm_num [faucetTimeout, Minute, Second]

/-- The saturation of `Time.Sub` does not move the comparison with the
cooldown. -/
theorem timeSince_lt_faucetTimeout (now val : Int) :
    timeSince now val < faucetTimeout ↔ now - val < 300000000000 := by
  rw [faucetTimeout_eq]
  unfold timeSince timeSub
  simp only [minDuration, maxDuration]
  norm_num
  delta Time Duration at *
  split_ifs <;> omega

/-- Inside the window and with no overflow of the subtraction, the duration
returned by `time.Since` is the exact difference. -/
theorem timeSince_exact (now val : Int) (h1 : now - val < 300000000000)
    (h2 : -(2 ^ 63) ≤ now - val) : timeSince now val = now - val := by
  unfold timeSince timeSub
  simp only [minDuration, maxDuration]
  norm_num at h2 ⊢
  delta Time Duration at *
  split_ifs <;> omega

theorem wrap64_of_range (x : Int) (h1 : -(2 ^ 63) ≤ x) (h2 : x < 2 ^ 63) : wrap64 x = x := by
  unfold wrap64
  norm_num at h1 h2 ⊢
  omega

/-! ## Shape of the result of `checkAddress` -/

theorem checkAddress_of_none (env : Env) (src : Chain) (addr : String) (tSince tNow : Int)
    (h : src.faucetAddrs addr = none) :
    checkAddress env src addr tSince tNow = admitted src addr tNow := by
  unfold checkAddress admitted
  simp only [h]

theorem checkAddress_of_elapsed (env : Env) (src : Chain) (addr : String)
    (tSince tNow val : Int) (h : src.faucetAddrs addr = some val)
    (hge : 300000000000 ≤ tSince - val) :
    checkAddress env src addr tSince tNow = admitted src addr tNow := by
  have hlt : ¬ timeSince tSince val < faucetTimeout := by
    rw [timeSince_lt_faucetTimeout]; omega
  unfold checkAddress admitted
  simp only [h, gt_iff_lt, hlt, if_false]

theorem checkAddress_of_recent (env : Env) (src : Chain) (addr : String)
    (tSince tNow val : Int) (h : src.faucetAddrs addr = some val)
    (hlt : tSince - val < 300000000000) :
    checkAddress env src addr tSince tNow =
      { chain := src, wait := durationSub faucetTimeout (timeSince tSince val),
        err := some (addr ++ " has requested funds within the last "
          ++ env.durationString faucetTimeout ++ ", wait "
          ++ env.durationString (durationSub faucetTimeout (timeSince tSince val))
          ++ " before trying again"),
        trace := [] } := by
  have hlt2 : timeSince tSince val < faucetTimeout := by
    rw [timeSince_lt_faucetTimeout]; exact hlt
  unfold checkAddress
  simp only [h, gt_iff_lt, hlt2, if_true]

/-- The three cases of `checkAddress`. -/
theorem checkAddress_cases (env : Env) (src : Chain) (addr : String) (tSince tNow : Int) :
    (checkAddress env src addr tSince tNow = admitted src addr tNow ∧
        (src.faucetAddrs addr = none ∨
          ∃ val : Int, src.faucetAddrs addr = some val ∧ 300000000000 ≤ tSince - val)) ∨
    (∃ val : Int, src.faucetAddrs addr = some val ∧ tSince - val < 300000000000 ∧
        (checkAddress env src addr tSince tNow).chain = src ∧
        (checkAddress env src addr tSince tNow).wait
          = durationSub faucetTimeout (timeSince tSince val) ∧
        (checkAddress env src addr tSince tNow).trace = [] ∧
        ∃ e, (checkAddress env src addr tSince tNow).err = some e) := by
  cases h : src.faucetAddrs addr with
  | none => exact Or.inl ⟨checkAddress_of_none env src addr tSince tNow h, Or.inl rfl⟩
  | some val =>
    by_cases hlt : tSince - val < 300000000000
    · refine Or.inr ⟨val, rfl, hlt, ?_⟩
      rw [checkAddress_of_recent env src addr tSince tNow val h hlt]
      exact ⟨rfl, rfl, rfl, _, rfl⟩
    · exact Or.inl ⟨checkAddress_of_elapsed env src addr tSince tNow val h (by omega),
        Or.inr ⟨val, rfl, by omega⟩⟩

theorem setAddr_same (src : Chain) (addr : String) (t : Int) :
    (src.setAddr addr t).faucetAddrs addr = some t := by
  simp [Chain.setAddr]

theorem setAddr_other (src : Chain) (a b : String) (t : Int) (h : a ≠ b) :
    (src.setAddr a t).faucetAddrs b = src.faucetAddrs b := by
  have hb : ¬ b = a := fun e => h e.symm
  simp [Chain.setAddr, hb]

theorem setAddr_ChainID (src : Chain) (addr : String) (t : Int) :
    (src.setAddr addr t).ChainID = src.ChainID := rfl

/-- The duration and error returned by `checkAddress` depend on the map only
through the entry of the address asked about. -/
theorem checkAddress_congr (env : Env) (src1 src2 : Chain) (addr : String)
    (tSince tNow : Int) (h : src1.faucetAddrs addr = src2.faucetAddrs addr) :
    (checkAddress env src1 addr tSince tNow).err = (checkAddress env src2 addr tSince tNow).err ∧
    (checkAddress env src1 addr tSince tNow).wait
      = (checkAddress env src2 addr tSince tNow).wait := by
  unfold checkAddress
  simp only [h]
  cases src2.faucetAddrs addr with
  | none => exact ⟨rfl, rfl⟩
  | some val =>
    simp only
    split_ifs
    · exact ⟨rfl, rfl⟩
    · exact ⟨rfl, rfl⟩

/-- Whatever it decides, `checkAddress a` leaves the entries of the other
addresses alone. -/
theorem checkAddress_frame (env : Env) (src : Chain) (a b : String) (tSince tNow : Int)
    (hab : a ≠ b) :
    (checkAddress env src a tSince tNow).chain.faucetAddrs b = src.faucetAddrs b := by
  rcases checkAddress_cases env src a tSince tNow with ⟨heq, -⟩ | ⟨_, -, -, hch, -, -, -⟩
  · rw [heq]; exact setAddr_other src a b tNow hab
  · rw [hch]

/-! ## Claims about the rate limiter -/

/-- C1: `checkAddress` returns an error exactly when the map has an entry for
the address and the clock reading minus that entry is below 5 minutes
(300000000000 ns); with no entry, or with at least 5 minutes elapsed (exactly
5 minutes included), the error is nil. -/
theorem checkAddress_error_iff (env : Env) (src : Chain) (addr : String)
    (now tNow : Int) :
    ((checkAddress env src addr now tNow).err ≠ none ↔
        ∃ val : Int, src.faucetAddrs addr = some val ∧ now - val < 300000000000) ∧
    ((src.faucetAddrs addr = none ∨
        ∃ val : Int, src.faucetAddrs addr = some val ∧ 300000000000 ≤ now - val) →
      (checkAddress env src addr now tNow).err = none) := by
  rcases checkAddress_cases env src addr now tNow with ⟨heq, hc⟩ | ⟨val, hv, hlt, -, -, -, e, he⟩
  · constructor
    · rw [heq]
      constructor
      · intro h; exact absurd rfl h
      · rintro ⟨val, hv, hlt⟩
        rcases hc with hn | ⟨v2, hv2, hge⟩
        · rw [hn] at hv; cases hv
        · rw [hv2] at hv; cases hv; omega
    · intro _; rw [heq]; rfl
  · constructor
    · constructor
      · intro _; exact ⟨val, hv, hlt⟩
      · intro _; rw [he]; simp
    · rintro (hn | ⟨v2, hv2, hge⟩)
      · rw [hn] at hv; cases hv
      · rw [hv2] at hv; cases hv; omega

/-- C2: when `checkAddress` rejects, the chain (and with it the whole
rate-limit map, the entry of the address included) is returned unchanged and
nothing is recorded. -/
theorem checkAddress_reject_keeps_map (env : Env) (src : Chain) (addr : String)
    (now tNow : Int) (h : (checkAddress env src addr now tNow).err ≠ none) :
    (checkAddress env src addr now tNow).chain = src ∧
    (checkAddress env src addr now tNow).trace = [] ∧
    ∀ k, (checkAddress env src addr now tNow).chain.faucetAddrs k = src.faucetAddrs k := by
  rcases checkAddress_cases env src addr now tNow with ⟨heq, -⟩ | ⟨val, -, -, hch, -, htr, -⟩
  · rw [heq] at h; exact absurd rfl h
  · exact ⟨hch, htr, fun k => by rw [hch]⟩

/-- Instance of C2: a retry 100 ns after the admission of `cosmos1abc`. -/
theorem checkAddress_reject_keeps_map_witness :
    (checkAddress sampleEnv limitedChain "cosmos1abc" 200 201).err ≠ none ∧
    ((checkAddress sampleEnv limitedChain "cosmos1abc" 200 201).chain = limitedChain ∧
     (checkAddress sampleEnv limitedChain "cosmos1abc" 200 201).trace = [] ∧
     ∀ k, (checkAddress sampleEnv limitedChain "cosmos1abc" 200 201).chain.faucetAddrs k
        = limitedChain.faucetAddrs k) :=
  ⟨by decide, checkAddress_reject_keeps_map sampleEnv limitedChain "cosmos1abc" 200 201
    (by decide)⟩

/-- C4: when `checkAddress` rejects, the returned wait is `faucetTimeout` minus
the duration `time.Since` gave for the recorded timestamp (Go's subtraction on
durations); that is the exact integer `5 min - (now - recorded)` whenever the
recorded timestamp is at most `2^63 - 1` ns minus 5 minutes ahead of the
clock, and when the clock is not earlier than the recorded timestamp the wait
lies in `(0, 5 min]`. -/
theorem reject_wait_bounds (env : Env) (src : Chain) (addr : String) (now tNow : Int)
    (h : (checkAddress env src addr now tNow).err ≠ none) :
    ∃ val : Int, src.faucetAddrs addr = some val ∧
      (checkAddress env src addr now tNow).wait
        = durationSub (5 * Minute) (timeSince now val) ∧
      (val - now ≤ 2 ^ 63 - 1 - 300000000000 →
        (checkAddress env src addr now tNow).wait = 300000000000 - (now - val)) ∧
      (val ≤ now →
        (checkAddress env src addr now tNow).wait = 300000000000 - (now - val) ∧
        0 < (checkAddress env src addr now tNow).wait ∧
        (checkAddress env src addr now tNow).wait ≤ 300000000000) := by
  rcases checkAddress_cases env src addr now tNow with ⟨heq, -⟩ | ⟨val, hv, hlt, -, hw, -, -⟩
  · rw [heq] at h; exact absurd rfl h
  · have key : val - now ≤ 2 ^ 63 - 1 - 300000000000 →
        (checkAddress env src addr now tNow).wait = 300000000000 - (now - val) := by
      intro hb
      have hb2 : val - now ≤ 9223371736854775807 := by norm_num at hb; omega
      rw [hw, timeSince_exact now val hlt (by norm_num; omega), faucetTimeout_eq]
      unfold durationSub
      exact wrap64_of_range _ (by norm_num; omega) (by norm_num; omega)
    refine ⟨val, hv, hw, key, ?_⟩
    intro hle
    have hk := key (by norm_num; omega)
    have h1 : (0 : Int) < 300000000000 - (now - val) := by omega
    have h2 : (300000000000 : Int) - (now - val) ≤ 300000000000 := by omega
    rw [hk]
    exact ⟨rfl, h1, h2⟩

/-- Instance of C4: a retry 100 ns after the admission of `cosmos1abc`. -/
theorem reject_wait_bounds_witness :
    (checkAddress sampleEnv limitedChain "cosmos1abc" 200 201).err ≠ none ∧
    ∃ val : Int, limitedChain.faucetAddrs "cosmos1abc" = some val ∧
      (checkAddress sampleEnv limitedChain "cosmos1abc" 200 201).wait
        = durationSub (5 * Minute) (timeSince 200 val) ∧
      (val - 200 ≤ 2 ^ 63 - 1 - 300000000000 →
        (checkAddress sampleEnv limitedChain "cosmos1abc" 200 201).wait
          = 300000000000 - (200 - val)) ∧
      (val ≤ 200 →
        (checkAddress sampleEnv limitedChain "cosmos1abc" 200 201).wait
          = 300000000000 - (200 - val) ∧
        0 < (checkAddress sampleEnv limitedChain "cosmos1abc" 200 201).wait ∧
        (checkAddress sampleEnv limitedChain "cosmos1abc" 200 201).wait ≤ 300000000000) :=
  ⟨by decide, reject_wait_bounds sampleEnv limitedChain "cosmos1abc" 200 201 (by decide)⟩

/-- C5: for distinct addresses `a` and `b`, `checkAddress a` leaves the entry
of `b` (present or absent) as it was, so the error and wait that
`checkAddress b` returns are the same after it as before it; two distinct
addresses without an entry are both admitted, in either order and at any
clock readings. -/
theorem no_false_sharing (env : Env) (src : Chain) (a b : String)
    (tSince tNow tSince2 tNow2 : Int) (hab : a ≠ b) :
    (checkAddress env src a tSince tNow).chain.faucetAddrs b = src.faucetAddrs b ∧
    (checkAddress env (checkAddress env src a tSince tNow).chain b tSince2 tNow2).err
      = (checkAddress env src b tSince2 tNow2).err ∧
    (checkAddress env (checkAddress env src a tSince tNow).chain b tSince2 tNow2).wait
      = (checkAddress env src b tSince2 tNow2).wait ∧
    (src.faucetAddrs a = none → src.faucetAddrs b = none →
      ((checkAddress env src a tSince tNow).err = none ∧
        (checkAddress env (checkAddress env src a tSince tNow).chain b tSince2 tNow2).err
          = none) ∧
      ((checkAddress env src b tSince2 tNow2).err = none ∧
        (checkAddress env (checkAddress env src b tSince2 tNow2).chain a tSince tNow).err
          = none)) := by
  have hfr := checkAddress_frame env src a b tSince tNow hab
  have hfr2 := checkAddress_frame env src b a tSince2 tNow2 (fun e => hab e.symm)
  have hcg := checkAddress_congr env (checkAddress env src a tSince tNow).chain src b
    tSince2 tNow2 hfr
  have hcg2 := checkAddress_congr env (checkAddress env src b tSince2 tNow2).chain src a
    tSince tNow hfr2
  refine ⟨hfr, hcg.1, hcg.2, ?_⟩
  intro ha hb
  have ea : (checkAddress env src a tSince tNow).err = none := by
    rw [checkAddress_of_none env src a tSince tNow ha]; rfl
  have eb : (checkAddress env src b tSince2 tNow2).err = none := by
    rw [checkAddress_of_none env src b tSince2 tNow2 hb]; rfl
  exact ⟨⟨ea, by rw [hcg.1]; exact eb⟩, ⟨eb, by rw [hcg2.1]; exact ea⟩⟩

/-- Instance of C5: `cosmos1abc` and `cosmos1xyz` on an empty map. -/
theorem no_false_sharing_witness :
    "cosmos1abc" ≠ "cosmos1xyz" ∧
    (checkAddress sampleEnv sampleChain "cosmos1abc" 100 100).err = none ∧
    (checkAddress sampleEnv (checkAddress sampleEnv sampleChain "cosmos1abc" 100 100).chain
      "cosmos1xyz" 100 100).err = none :=
  have h := no_false_sharing sampleEnv sampleChain "cosmos1abc" "cosmos1xyz" 100 100 100 100
    (by decide)
  ⟨by decide, (h.2.2.2 rfl rfl).1.1, (h.2.2.2 rfl rfl).1.2⟩

/-! ## Shape of the result of the handler -/

/-- A body that does not decode is answered 400 and changes nothing. -/
theorem FaucetHandler_malformed (env : Env) (src : Chain) (fromKey : AccAddress)
    (amount : Coin) (byt : String) (tSince tNow : Int) (e : String)
    (hu : env.unmarshal byt = .error e) :
    FaucetHandler env src fromKey amount (.ok byt) tSince tNow =
      { chain := src,
        response := respondWithError StatusBadRequest
          ("Failed to unmarshal request payload: " ++ byt),
        trace := [Event.log "handling faucet request...",
          Event.log ("Failed to unmarshal request payload: " ++ byt)] } := by
  unfold FaucetHandler
  simp only [hu]

/-- A request for another chain is answered 400 and changes nothing. -/
theorem FaucetHandler_wrong_chain (env : Env) (src : Chain) (fromKey : AccAddress)
    (amount : Coin) (byt : String) (fr : FaucetRequest) (tSince tNow : Int)
    (hu : env.unmarshal byt = .ok fr) (hc : fr.ChainID ≠ src.ChainID) :
    FaucetHandler env src fromKey amount (.ok byt) tSince tNow =
      { chain := src,
        response := respondWithError StatusBadRequest
          ("Invalid chain id: exp(" ++ src.ChainID ++ ") got(" ++ fr.ChainID ++ ")"),
        trace := [Event.log "handling faucet request...",
          Event.log ("Invalid chain id: exp(" ++ src.ChainID ++ ") got(" ++ fr.ChainID
            ++ ")")] } := by
  unfold FaucetHandler
  simp only [hu, ne_eq, hc, not_false_eq_true, if_true]

/-- A valid request that the rate limiter rejects is answered 429. -/
theorem FaucetHandler_limited (env : Env) (src : Chain) (fromKey : AccAddress)
    (amount : Coin) (byt : String) (fr : FaucetRequest) (tSince tNow : Int) (e : String)
    (hu : env.unmarshal byt = .ok fr) (hc : fr.ChainID = src.ChainID)
    (he : (checkAddress env src fr.Address tSince tNow).err = some e) :
    FaucetHandler env src fromKey amount (.ok byt) tSince tNow =
      { chain := (checkAddress env src fr.Address tSince tNow).chain,
        response := respondWithError StatusTooManyRequests e,
        trace := [Event.log "handling faucet request..."]
          ++ (checkAddress env src fr.Address tSince tNow).trace
          ++ [Event.log (fr.Address ++ " hit rate limit, needs to wait "
            ++ env.durationString (checkAddress env src fr.Address tSince tNow).wait)] } := by
  unfold FaucetHandler
  simp only [hu, hc, ne_eq, not_true_eq_false, if_false, he]

/-- A valid request that the rate limiter admits and whose send fails is
answered 500. -/
theorem FaucetHandler_send_failed (env : Env) (src : Chain) (fromKey : AccAddress)
    (amount : Coin) (byt : String) (fr : FaucetRequest) (tSince tNow : Int) (e : String)
    (tr : List Event)
    (hu : env.unmarshal byt = .ok fr) (hc : fr.ChainID = src.ChainID)
    (he : (checkAddress env src fr.Address tSince tNow).err = none)
    (hs : faucetSend env (checkAddress env src fr.Address tSince tNow).chain fromKey
      (fr.addr env) amount = (some e, tr)) :
    FaucetHandler env src fromKey amount (.ok byt) tSince tNow =
      { chain := (checkAddress env src fr.Address tSince tNow).chain,
        response := respondWithError StatusInternalServerError e,
        trace := [Event.log "handling faucet request..."]
          ++ (checkAddress env src fr.Address tSince tNow).trace
          ++ [Event.useSDKContext] ++ tr ++ [Event.logError e] } := by
  unfold FaucetHandler
  simp only [hu, hc, ne_eq, not_true_eq_false, if_false, he, hs]

/-- A valid request that the rate limiter admits and whose send succeeds is
answered 201. -/
theorem FaucetHandler_sent (env : Env) (src : Chain) (fromKey : AccAddress)
    (amount : Coin) (byt : String) (fr : FaucetRequest) (tSince tNow : Int)
    (tr : List Event)
    (hu : env.unmarshal byt = .ok fr) (hc : fr.ChainID = src.ChainID)
    (he : (checkAddress env src fr.Address tSince tNow).err = none)
    (hs : faucetSend env (checkAddress env src fr.Address tSince tNow).chain fromKey
      (fr.addr env) amount = (none, tr)) :
    FaucetHandler env src fromKey amount (.ok byt) tSince tNow =
      { chain := (checkAddress env src fr.Address tSince tNow).chain,
        response := respondWithJSON StatusCreated
                (Payload.success fr.Address (env.coinString amount)),
        trace := [Event.log "handling faucet request..."]
          ++ (checkAddress env src fr.Address tSince tNow).trace
          ++ [Event.useSDKContext] ++ tr
          ++ [Event.log (fr.Address ++ " was sent " ++ env.coinString amount
            ++ " successfully")] } := by
  unfold FaucetHandler
  simp only [hu, hc, ne_eq, not_true_eq_false, if_false, he, hs]

/-- A valid request that the rate limiter admits is answered 201 or 500, and
the chain afterwards is the one `checkAddress` left. -/
theorem FaucetHandler_admitted (env : Env) (src : Chain) (fromKey : AccAddress)
    (amount : Coin) (byt : String) (fr : FaucetRequest) (tSince tNow : Int)
    (hu : env.unmarshal byt = .ok fr) (hc : fr.ChainID = src.ChainID)
    (he : (checkAddress env src fr.Address tSince tNow).err = none) :
    ((FaucetHandler env src fromKey amount (.ok byt) tSince tNow).response.status = 201 ∨
      (FaucetHandler env src fromKey amount (.ok byt) tSince tNow).response.status = 500) ∧
    (FaucetHandler env src fromKey amount (.ok byt) tSince tNow).chain
      = (checkAddress env src fr.Address tSince tNow).chain := by
  rcases hs : faucetSend env (checkAddress env src fr.Address tSince tNow).chain fromKey
      (fr.addr env) amount with ⟨_ | e, tr⟩
  · rw [FaucetHandler_sent env src fromKey amount byt fr tSince tNow tr hu hc he hs]
    exact ⟨Or.inl rfl, rfl⟩
  · rw [FaucetHandler_send_failed env src fromKey amount byt fr tSince tNow e tr hu hc he hs]
    exact ⟨Or.inr rfl, rfl⟩

/-! ## The window, seen from the handler -/

/-- C3: once a request for an address is admitted at reading `t` (the map then
holds `t` for it), a second request for the same address at a reading `t2`
with `t ≤ t2 < t + 5 min` is rejected by `checkAddress` and answered 429 by
the handler, and one at `t2 ≥ t + 5 min` is admitted again (answered 201 or
500, never 429). -/
theorem rate_limit_window (env : Env) (src : Chain) (fromKey : AccAddress) (amount : Coin)
    (byt : String) (fr : FaucetRequest) (tSince t : Int)
    (hu : env.unmarshal byt = .ok fr) (hc : fr.ChainID = src.ChainID)
    (hadm : (checkAddress env src fr.Address tSince t).err = none) :
    (FaucetHandler env src fromKey amount (.ok byt) tSince t).chain
      = (checkAddress env src fr.Address tSince t).chain ∧
    (checkAddress env src fr.Address tSince t).chain.faucetAddrs fr.Address = some t ∧
    (∀ (byt2 : String) (fr2 : FaucetRequest) (t2 tNow2 : Int),
      env.unmarshal byt2 = .ok fr2 → fr2.ChainID = src.ChainID → fr2.Address = fr.Address →
      t ≤ t2 → t2 < t + 300000000000 →
      (checkAddress env (checkAddress env src fr.Address tSince t).chain
          fr.Address t2 tNow2).err ≠ none ∧
      (FaucetHandler env (FaucetHandler env src fromKey amount (.ok byt) tSince t).chain
          fromKey amount (.ok byt2) t2 tNow2).response.status = 429) ∧
    (∀ (byt2 : String) (fr2 : FaucetRequest) (t2 tNow2 : Int),
      env.unmarshal byt2 = .ok fr2 → fr2.ChainID = src.ChainID → fr2.Address = fr.Address →
      t + 300000000000 ≤ t2 →
      (checkAddress env (checkAddress env src fr.Address tSince t).chain
          fr.Address t2 tNow2).err = none ∧
      ((FaucetHandler env (FaucetHandler env src fromKey amount (.ok byt) tSince t).chain
          fromKey amount (.ok byt2) t2 tNow2).response.status = 201 ∨
       (FaucetHandler env (FaucetHandler env src fromKey amount (.ok byt) tSince t).chain
          fromKey amount (.ok byt2) t2 tNow2).response.status = 500)) := by
  have hchain := (FaucetHandler_admitted env src fromKey amount byt fr tSince t hu hc hadm).2
  have heq : checkAddress env src fr.Address tSince t = admitted src fr.Address t := by
    rcases checkAddress_cases env src fr.Address tSince t with ⟨h, -⟩ | ⟨_, -, -, -, -, -, e, he⟩
    · exact h
    · rw [he] at hadm; cases hadm
  have hch : (checkAddress env src fr.Address tSince t).chain = src.setAddr fr.Address t := by
    rw [heq]; rfl
  have hentry : (src.setAddr fr.Address t).faucetAddrs fr.Address = some t :=
    setAddr_same src fr.Address t
  refine ⟨hchain, by rw [hch]; exact hentry, ?_, ?_⟩
  · intro byt2 fr2 t2 tNow2 hu2 hc2 ha h1 h2
    rw [hchain, hch]
    have hrec := checkAddress_of_recent env (src.setAddr fr.Address t) fr.Address t2 tNow2 t
      hentry (by omega)
    have herr : (checkAddress env (src.setAddr fr.Address t) fr.Address t2 tNow2).err
        = some (fr.Address ++ " has requested funds within the last "
          ++ env.durationString faucetTimeout ++ ", wait "
          ++ env.durationString (durationSub faucetTimeout (timeSince t2 t))
          ++ " before trying again") := by rw [hrec]
    refine ⟨by rw [herr]; simp, ?_⟩
    rw [← ha] at herr
    rw [← ha, FaucetHandler_limited env (src.setAddr fr2.Address t) fromKey amount byt2 fr2 t2
      tNow2 _ hu2 hc2 herr]
    rfl
  · intro byt2 fr2 t2 tNow2 hu2 hc2 ha h1
    rw [hchain, hch]
    have hel := checkAddress_of_elapsed env (src.setAddr fr.Address t) fr.Address t2 tNow2 t
      hentry (by omega)
    have herr : (checkAddress env (src.setAddr fr.Address t) fr.Address t2 tNow2).err = none := by
      rw [hel]; rfl
    refine ⟨herr, ?_⟩
    rw [← ha] at herr
    rw [← ha]
    exact (FaucetHandler_admitted env (src.setAddr fr2.Address t) fromKey amount byt2 fr2
      t2 tNow2 hu2 hc2 herr).1

/-- Instance of C3: an admission at reading 100, a repeat at 150 and one 5
minutes after the admission. -/
theorem rate_limit_window_witness :
    sampleEnv.unmarshal sampleBody = .ok ⟨"test-1", "cosmos1abc"⟩ ∧
    (checkAddress sampleEnv sampleChain "cosmos1abc" 100 100).err = none ∧
    (checkAddress sampleEnv sampleChain "cosmos1abc" 100 100).chain.faucetAddrs "cosmos1abc"
      = some 100 ∧
    (FaucetHandler sampleEnv
      (FaucetHandler sampleEnv sampleChain [9] sampleCoin (.ok sampleBody) 100 100).chain
      [9] sampleCoin (.ok sampleBody) 150 150).response.status = 429 ∧
    ((FaucetHandler sampleEnv
      (FaucetHandler sampleEnv sampleChain [9] sampleCoin (.ok sampleBody) 100 100).chain
      [9] sampleCoin (.ok sampleBody) 300000000100 300000000100).response.status = 201 ∨
     (FaucetHandler sampleEnv
      (FaucetHandler sampleEnv sampleChain [9] sampleCoin (.ok sampleBody) 100 100).chain
      [9] sampleCoin (.ok sampleBody) 300000000100 300000000100).response.status = 500) :=
  have h := rate_limit_window sampleEnv sampleChain [9] sampleCoin sampleBody
    ⟨"test-1", "cosmos1abc"⟩ 100 100 rfl rfl (by decide)
  ⟨rfl, by decide, h.2.1,
    (h.2.2.1 sampleBody ⟨"test-1", "cosmos1abc"⟩ 150 150 rfl rfl rfl
      (by decide) (by decide)).2,
    (h.2.2.2 sampleBody ⟨"test-1", "cosmos1abc"⟩ 300000000100 300000000100 rfl rfl rfl
      (by decide)).2⟩

/-! ## The send path -/

/-- Building and signing do not read the rate-limit map. -/
theorem faucetSend_setAddr (env : Env) (src : Chain) (addr : String) (t : Int)
    (fromAddr toAddr : AccAddress) (amount : Coin) :
    faucetSend env (src.setAddr addr t) fromAddr toAddr amount
      = faucetSend env src fromAddr toAddr amount := rfl

theorem checkAddress_admitted_eq (env : Env) (src : Chain) (addr : String)
    (tSince tNow : Int) (h : (checkAddress env src addr tSince tNow).err = none) :
    checkAddress env src addr tSince tNow = admitted src addr tNow := by
  rcases checkAddress_cases env src addr tSince tNow with ⟨heq, -⟩ | ⟨_, -, -, -, -, -, e, he⟩
  · exact heq
  · rw [he] at h; cases h

/-- A failing key lookup is returned as it is. -/
theorem faucetSend_no_key (env : Env) (src : Chain) (fromAddr toAddr : AccAddress)
    (amount : Coin) (e : String) (hk : env.keyByAddress fromAddr = .error e) :
    faucetSend env src fromAddr toAddr amount = (some e, [Event.keyByAddress fromAddr]) := by
  unfold faucetSend
  simp only [hk]

/-- With the key found, `faucetSend` is decided by the pair `SendMsgWithKey`
returns. -/
theorem faucetSend_with_key (env : Env) (src : Chain) (fromAddr toAddr : AccAddress)
    (amount : Coin) (info : KeyInfo) (hk : env.keyByAddress fromAddr = .ok info) :
    faucetSend env src fromAddr toAddr amount =
      if (SendMsgWithKey env src (faucetMsg env fromAddr toAddr amount) info.name).1.2 ≠ none ∨
          (SendMsgWithKey env src (faucetMsg env fromAddr toAddr amount) info.name).1.1.Code ≠ 0
      then
        (some ("failed to send transaction: "
            ++ env.sdkErrorString (sdkerrorsNew
              (SendMsgWithKey env src (faucetMsg env fromAddr toAddr amount) info.name).1.1.Codespace
              (SendMsgWithKey env src (faucetMsg env fromAddr toAddr amount) info.name).1.1.Code
              (SendMsgWithKey env src (faucetMsg env fromAddr toAddr amount) info.name).1.1.RawLog)
            ++ "\n"),
          Event.keyByAddress fromAddr
            :: (SendMsgWithKey env src (faucetMsg env fromAddr toAddr amount) info.name).2)
      else
        (none, Event.keyByAddress fromAddr
            :: (SendMsgWithKey env src (faucetMsg env fromAddr toAddr amount) info.name).2) := by
  unfold faucetSend faucetMsg
  simp only [hk]

/-- The handler on a valid, admitted request, in terms of `faucetSend` run on
the chain as it was before the request. -/
theorem FaucetHandler_of_admitted (env : Env) (src : Chain) (fromKey : AccAddress)
    (amount : Coin) (byt : String) (fr : FaucetRequest) (tSince tNow : Int)
    (hu : env.unmarshal byt = .ok fr) (hc : fr.ChainID = src.ChainID)
    (he : (checkAddress env src fr.Address tSince tNow).err = none) :
    FaucetHandler env src fromKey amount (.ok byt) tSince tNow =
      match faucetSend env src fromKey (fr.addr env) amount with
      | (some e, tr) =>
        { chain := src.setAddr fr.Address tNow,
          response := respondWithError StatusInternalServerError e,
          trace := [Event.log "handling faucet request...", Event.record fr.Address tNow,
            Event.useSDKContext] ++ tr ++ [Event.logError e] }
      | (none, tr) =>
        { chain := src.setAddr fr.Address tNow,
          response := respondWithJSON StatusCreated
                (Payload.success fr.Address (env.coinString amount)),
          trace := [Event.log "handling faucet request...", Event.record fr.Address tNow,
            Event.useSDKContext] ++ tr
            ++ [Event.log (fr.Address ++ " was sent " ++ env.coinString amount
              ++ " successfully")] } := by
  have heq := checkAddress_admitted_eq env src fr.Address tSince tNow he
  rcases hs : faucetSend env src fromKey (fr.addr env) amount with ⟨_ | e, tr⟩
  · have hs2 : faucetSend env (checkAddress env src fr.Address tSince tNow).chain fromKey
        (fr.addr env) amount = (none, tr) := by rw [heq]; exact hs
    rw [FaucetHandler_sent env src fromKey amount byt fr tSince tNow tr hu hc he hs2, heq]
    rfl
  · have hs2 : faucetSend env (checkAddress env src fr.Address tSince tNow).chain fromKey
        (fr.addr env) amount = (some e, tr) := by rw [heq]; exact hs
    rw [FaucetHandler_send_failed env src fromKey amount byt fr tSince tNow e tr hu hc he hs2,
      heq]
    rfl

/-! ## Claims about the handler -/

/-- C6: a request whose body was read but does not decode, or decodes with a
chain-id other than the configured one (whatever its address), is answered
400; the chain, rate-limit map included, is unchanged, and the only side
effects are log lines: nothing is recorded, built, signed or broadcast. -/
theorem invalid_request_rejected (env : Env) (src : Chain) (fromKey : AccAddress)
    (amount : Coin) (byt : String) (tSince tNow : Int)
    (h : (∃ e, env.unmarshal byt = .error e) ∨
      ∃ fr, env.unmarshal byt = .ok fr ∧ fr.ChainID ≠ src.ChainID) :
    (FaucetHandler env src fromKey amount (.ok byt) tSince tNow).response.status = 400 ∧
    (FaucetHandler env src fromKey amount (.ok byt) tSince tNow).chain = src ∧
    (∀ ev ∈ (FaucetHandler env src fromKey amount (.ok byt) tSince tNow).trace,
      ∃ s, ev = Event.log s) ∧
    (FaucetHandler env src fromKey amount (.ok byt) tSince tNow).trace.any Event.isTx
      = false := by
  rcases h with ⟨e, he⟩ | ⟨fr, hfr, hne⟩
  · rw [FaucetHandler_malformed env src fromKey amount byt tSince tNow e he]
    refine ⟨rfl, rfl, ?_, rfl⟩
    intro ev hev
    simp only [List.mem_cons, List.mem_singleton, List.not_mem_nil, or_false] at hev
    rcases hev with h1 | h1 <;> exact ⟨_, h1⟩
  · rw [FaucetHandler_wrong_chain env src fromKey amount byt fr tSince tNow hfr hne]
    refine ⟨rfl, rfl, ?_, rfl⟩
    intro ev hev
    simp only [List.mem_cons, List.mem_singleton, List.not_mem_nil, or_false] at hev
    rcases hev with h1 | h1 <;> exact ⟨_, h1⟩

/-- Instance of C6: a request for chain `test-2` sent to chain `test-1`. -/
theorem invalid_request_rejected_witness :
    ((∃ e, sampleEnv.unmarshal otherChainBody = .error e) ∨
      ∃ fr, sampleEnv.unmarshal otherChainBody = .ok fr ∧ fr.ChainID ≠ sampleChain.ChainID) ∧
    (FaucetHandler sampleEnv sampleChain [9] sampleCoin (.ok otherChainBody) 100 100
      ).response.status = 400 ∧
    (FaucetHandler sampleEnv sampleChain [9] sampleCoin (.ok otherChainBody) 100 100).chain
      = sampleChain :=
  have hyp : (∃ e, sampleEnv.unmarshal otherChainBody = .error e) ∨
      ∃ fr, sampleEnv.unmarshal otherChainBody = .ok fr ∧ fr.ChainID ≠ sampleChain.ChainID :=
    Or.inr ⟨⟨"test-2", "cosmos1abc"⟩, rfl, by decide⟩
  have h := invalid_request_rejected sampleEnv sampleChain [9] sampleCoin otherChainBody
    100 100 hyp
  ⟨hyp, h.1, h.2.1⟩

/-- The handler answers 201 only on the path where the body decodes, the chain
matches, the rate limiter admits, the key is found and `SendMsgWithKey`
returns a nil error with code 0. -/
theorem created_only_on_success (env : Env) (src : Chain) (fromKey : AccAddress)
    (amount : Coin) (body : Except String String) (tSince tNow : Int)
    (h201 : (FaucetHandler env src fromKey amount body tSince tNow).response.status = 201) :
    ∃ byt fr info, body = .ok byt ∧ env.unmarshal byt = .ok fr ∧ fr.ChainID = src.ChainID ∧
      (checkAddress env src fr.Address tSince tNow).err = none ∧
      env.keyByAddress fromKey = .ok info ∧
      (SendMsgWithKey env src (faucetMsg env fromKey (fr.addr env) amount) info.name).1.2
        = none ∧
      (SendMsgWithKey env src (faucetMsg env fromKey (fr.addr env) amount) info.name).1.1.Code
        = 0 ∧
      (FaucetHandler env src fromKey amount body tSince tNow).response
        = ⟨201, Payload.success fr.Address (env.coinString amount)⟩ := by
  cases body with
  | error e =>
    exfalso
    have : (FaucetHandler env src fromKey amount (.error e) tSince tNow).response.status
        = 502 := rfl
    omega
  | ok byt =>
    cases hu : env.unmarshal byt with
    | error e =>
      exfalso
      rw [FaucetHandler_malformed env src fromKey amount byt tSince tNow e hu] at h201
      have : (400 : Nat) = 201 := h201
      omega
    | ok fr =>
      by_cases hc : fr.ChainID = src.ChainID
      · cases he : (checkAddress env src fr.Address tSince tNow).err with
        | some e =>
          exfalso
          rw [FaucetHandler_limited env src fromKey amount byt fr tSince tNow e hu hc he] at h201
          have : (429 : Nat) = 201 := h201
          omega
        | none =>
          rw [FaucetHandler_of_admitted env src fromKey amount byt fr tSince tNow hu hc he]
            at h201 ⊢
          cases hk : env.keyByAddress fromKey with
          | error e =>
            exfalso
            rw [faucetSend_no_key env src fromKey (fr.addr env) amount e hk] at h201
            have : (500 : Nat) = 201 := h201
            omega
          | ok info =>
            rw [faucetSend_with_key env src fromKey (fr.addr env) amount info hk] at h201 ⊢
            split_ifs at h201 ⊢ with hf
            · exfalso
              have : (500 : Nat) = 201 := h201
              omega
            · have h1 : (SendMsgWithKey env src (faucetMsg env fromKey (fr.addr env) amount)
                  info.name).1.2 = none := by
                by_contra hne; exact hf (Or.inl hne)
              have h2 : (SendMsgWithKey env src (faucetMsg env fromKey (fr.addr env) amount)
                  info.name).1.1.Code = 0 := by
                by_contra hne; exact hf (Or.inr hne)
              exact ⟨byt, fr, info, rfl, hu, hc, he, rfl, h1, h2, rfl⟩
      · exfalso
        rw [FaucetHandler_wrong_chain env src fromKey amount byt fr tSince tNow hu hc] at h201
        have : (400 : Nat) = 201 := h201
        omega

/-- C7: for a request that passes validation and the rate limit, if
`SendMsgWithKey` returns a non-nil error or a response with code other than
0, `faucetSend` returns an error and the handler answers 500; and whatever
the request, the handler answers 201 (with the request's address and the
amount) only when `SendMsgWithKey` returned a nil error and code 0. -/
theorem failed_broadcast_not_success (env : Env) (src : Chain) (fromKey : AccAddress)
    (amount : Coin) (byt : String) (fr : FaucetRequest) (tSince tNow : Int) (info : KeyInfo)
    (hu : env.unmarshal byt = .ok fr) (hc : fr.ChainID = src.ChainID)
    (hadm : (checkAddress env src fr.Address tSince tNow).err = none)
    (hk : env.keyByAddress fromKey = .ok info) :
    (((SendMsgWithKey env src (faucetMsg env fromKey (fr.addr env) amount) info.name).1.2
          ≠ none ∨
        (SendMsgWithKey env src (faucetMsg env fromKey (fr.addr env) amount) info.name).1.1.Code
          ≠ 0) →
      (faucetSend env (checkAddress env src fr.Address tSince tNow).chain fromKey
        (fr.addr env) amount).1 ≠ none ∧
      (FaucetHandler env src fromKey amount (.ok byt) tSince tNow).response.status = 500) ∧
    (∀ (body : Except String String) (t1 t2 : Int),
      (FaucetHandler env src fromKey amount body t1 t2).response.status = 201 →
      ∃ byt2 fr2 info2, body = .ok byt2 ∧ env.unmarshal byt2 = .ok fr2 ∧
        env.keyByAddress fromKey = .ok info2 ∧
        (SendMsgWithKey env src (faucetMsg env fromKey (fr2.addr env) amount) info2.name).1.2
          = none ∧
        (SendMsgWithKey env src (faucetMsg env fromKey (fr2.addr env) amount) info2.name).1.1.Code
          = 0 ∧
        (FaucetHandler env src fromKey amount body t1 t2).response
          = ⟨201, Payload.success fr2.Address (env.coinString amount)⟩) := by
  constructor
  · intro hfail
    have heq := checkAddress_admitted_eq env src fr.Address tSince tNow hadm
    have hsend : faucetSend env src fromKey (fr.addr env) amount =
        (some ("failed to send transaction: "
            ++ env.sdkErrorString (sdkerrorsNew
              (SendMsgWithKey env src (faucetMsg env fromKey (fr.addr env) amount)
                info.name).1.1.Codespace
              (SendMsgWithKey env src (faucetMsg env fromKey (fr.addr env) amount)
                info.name).1.1.Code
              (SendMsgWithKey env src (faucetMsg env fromKey (fr.addr env) amount)
                info.name).1.1.RawLog)
            ++ "\n"),
          Event.keyByAddress fromKey
            :: (SendMsgWithKey env src (faucetMsg env fromKey (fr.addr env) amount)
                info.name).2) := by
      rw [faucetSend_with_key env src fromKey (fr.addr env) amount info hk, if_pos hfail]
    constructor
    · rw [heq]
      show (faucetSend env (src.setAddr fr.Address tNow) fromKey (fr.addr env) amount).1 ≠ none
      rw [faucetSend_setAddr, hsend]
      simp
    · rw [FaucetHandler_of_admitted env src fromKey amount byt fr tSince tNow hu hc hadm, hsend]
      rfl
  · intro body t1 t2 h201
    obtain ⟨byt2, fr2, info2, hb, hu2, -, -, hk2, h1, h2, hr⟩ :=
      created_only_on_success env src fromKey amount body t1 t2 h201
    exact ⟨byt2, fr2, info2, hb, hu2, hk2, h1, h2, hr⟩

/-- Instance of C7: the node rejects the transaction with code 5. -/
theorem failed_broadcast_not_success_witness :
    (SendMsgWithKey rejectingEnv sampleChain
      (faucetMsg rejectingEnv [9] (FaucetRequest.addr rejectingEnv ⟨"test-1", "cosmos1abc"⟩) sampleCoin)
      "faucet").1.1.Code ≠ 0 ∧
    (FaucetHandler rejectingEnv sampleChain [9] sampleCoin (.ok sampleBody) 100 100
      ).response.status = 500 :=
  have h := failed_broadcast_not_success rejectingEnv sampleChain [9] sampleCoin sampleBody
    ⟨"test-1", "cosmos1abc"⟩ 100 100 ⟨"faucet", [9]⟩ rfl rfl (by decide) rfl
  ⟨by decide, (h.1 (Or.inr (by decide))).2⟩

/-- A text contains what stands in its middle. -/
theorem containsText_middle (a d z : String) : containsText (a ++ d ++ z) d := by
  unfold containsText
  exact ⟨a.data, z.data, by simp [String.data_append]⟩

/-- A response code other than 0 can only come from the broadcast. -/
theorem SendMsgWithKey_code_ne_zero (env : Env) (src : Chain) (datagram : MsgSend)
    (keyName : String) (h : (SendMsgWithKey env src datagram keyName).1.1.Code ≠ 0) :
    ∃ out, (BuildAndSignTxWithKey env src [datagram] keyName).1 = .ok out ∧
      (SendMsgWithKey env src datagram keyName).1 = env.broadcastTxCommit out := by
  unfold SendMsgWithKey at h ⊢
  rcases hb : BuildAndSignTxWithKey env src [datagram] keyName with ⟨_ | out, tr⟩
  · rw [hb] at h
    exact absurd rfl h
  · exact ⟨out, rfl, rfl⟩

/-- C8 (as amended): when the broadcast returns a result with code other than
0, the handler answers 500 and the error text is `failed to send transaction: `
followed by the string form of `sdkerrors.New codespace code rawLog` and a
newline; with the `Error()` method of the cosmos-sdk, which returns the
description, that text contains the rawLog. -/
theorem rejected_broadcast_text (env : Env) (src : Chain) (fromKey : AccAddress)
    (amount : Coin) (byt : String) (fr : FaucetRequest) (tSince tNow : Int) (info : KeyInfo)
    (hu : env.unmarshal byt = .ok fr) (hc : fr.ChainID = src.ChainID)
    (hadm : (checkAddress env src fr.Address tSince tNow).err = none)
    (hk : env.keyByAddress fromKey = .ok info)
    (hcode : (SendMsgWithKey env src (faucetMsg env fromKey (fr.addr env) amount)
      info.name).1.1.Code ≠ 0) :
    ∃ out res err, env.broadcastTxCommit out = (res, err) ∧ res.Code ≠ 0 ∧
      (SendMsgWithKey env src (faucetMsg env fromKey (fr.addr env) amount) info.name).1
        = (res, err) ∧
      (FaucetHandler env src fromKey amount (.ok byt) tSince tNow).response
        = respondWithError 500 ("failed to send transaction: "
            ++ env.sdkErrorString (sdkerrorsNew res.Codespace res.Code res.RawLog) ++ "\n") ∧
      (env.sdkErrorString = cosmosErrorString →
        containsText ("failed to send transaction: "
            ++ env.sdkErrorString (sdkerrorsNew res.Codespace res.Code res.RawLog) ++ "\n")
          res.RawLog) := by
  obtain ⟨out, -, hout⟩ := SendMsgWithKey_code_ne_zero env src _ _ hcode
  refine ⟨out, (env.broadcastTxCommit out).1, (env.broadcastTxCommit out).2, rfl, ?_, hout,
    ?_, ?_⟩
  · rw [← hout]; exact hcode
  · rw [FaucetHandler_of_admitted env src fromKey amount byt fr tSince tNow hu hc hadm,
      faucetSend_with_key env src fromKey (fr.addr env) amount info hk, if_pos (Or.inr hcode),
      hout]
    rfl
  · intro hren
    rw [hren]
    exact containsText_middle _ _ _

/-- Instance of C8 as amended: the node rejects the transaction with code 5. -/
theorem rejected_broadcast_text_witness :
    (SendMsgWithKey rejectingEnv sampleChain
      (faucetMsg rejectingEnv [9] (FaucetRequest.addr rejectingEnv ⟨"test-1", "cosmos1abc"⟩) sampleCoin)
      "faucet").1.1.Code ≠ 0 ∧
    ∃ out res err, rejectingEnv.broadcastTxCommit out = (res, err) ∧ res.Code ≠ 0 ∧
      (SendMsgWithKey rejectingEnv sampleChain
        (faucetMsg rejectingEnv [9] (FaucetRequest.addr rejectingEnv ⟨"test-1", "cosmos1abc"⟩)
          sampleCoin) "faucet").1 = (res, err) ∧
      (FaucetHandler rejectingEnv sampleChain [9] sampleCoin (.ok sampleBody) 100 100).response
        = respondWithError 500 ("failed to send transaction: "
            ++ rejectingEnv.sdkErrorString (sdkerrorsNew res.Codespace res.Code res.RawLog)
            ++ "\n") ∧
      (rejectingEnv.sdkErrorString = cosmosErrorString →
        containsText ("failed to send transaction: "
            ++ rejectingEnv.sdkErrorString (sdkerrorsNew res.Codespace res.Code res.RawLog)
            ++ "\n")
          res.RawLog) :=
  ⟨by decide, rejected_broadcast_text rejectingEnv sampleChain [9] sampleCoin sampleBody
    ⟨"test-1", "cosmos1abc"⟩ 100 100 ⟨"faucet", [9]⟩ rfl rfl (by decide) rfl (by decide)⟩

/-- Counterexample to C8 as stated: the node rejects the transaction with
codespace `sdk` and rawLog `insufficient funds`; the handler answers 500 with the text
`failed to send transaction: insufficient funds`, in which `sdk` does not
occur. -/
theorem codespace_missing_from_text :
    rejectingEnv.broadcastTxCommit [7, 42] = (⟨5, "sdk", "insufficient funds", ""⟩, none) ∧
    (SendMsgWithKey rejectingEnv sampleChain
      (faucetMsg rejectingEnv [9] (FaucetRequest.addr rejectingEnv ⟨"test-1", "cosmos1abc"⟩) sampleCoin)
      "faucet").1 = (⟨5, "sdk", "insufficient funds", ""⟩, none) ∧
    (FaucetHandler rejectingEnv sampleChain [9] sampleCoin (.ok sampleBody) 100 100).response
      = respondWithError 500 "failed to send transaction: insufficient funds\n" ∧
    ¬ containsText "failed to send transaction: insufficient funds\n" "sdk" := by
  refine ⟨rfl, rfl, by decide, by decide⟩

/-- C9 (as amended): on a valid, admitted request, a failing key lookup makes
the handler answer 500 with exactly the underlying error's message (no
generic text), and a failing `SendMsgWithKey` makes it answer 500 with a text
that starts with the generic `failed to send transaction: `. -/
theorem send_failure_text (env : Env) (src : Chain) (fromKey : AccAddress)
    (amount : Coin) (byt : String) (fr : FaucetRequest) (tSince tNow : Int)
    (hu : env.unmarshal byt = .ok fr) (hc : fr.ChainID = src.ChainID)
    (hadm : (checkAddress env src fr.Address tSince tNow).err = none) :
    (∀ e, env.keyByAddress fromKey = .error e →
      (FaucetHandler env src fromKey amount (.ok byt) tSince tNow).response
        = respondWithError 500 e) ∧
    (∀ info e, env.keyByAddress fromKey = .ok info →
      (SendMsgWithKey env src (faucetMsg env fromKey (fr.addr env) amount) info.name).1.2
        = some e →
      ∃ rest, (FaucetHandler env src fromKey amount (.ok byt) tSince tNow).response
        = respondWithError 500 ("failed to send transaction: " ++ rest)) := by
  constructor
  · intro e hk
    rw [FaucetHandler_of_admitted env src fromKey amount byt fr tSince tNow hu hc hadm,
      faucetSend_no_key env src fromKey (fr.addr env) amount e hk]
    rfl
  · intro info e hk herr
    have hfail : (SendMsgWithKey env src (faucetMsg env fromKey (fr.addr env) amount)
          info.name).1.2 ≠ none ∨
        (SendMsgWithKey env src (faucetMsg env fromKey (fr.addr env) amount)
          info.name).1.1.Code ≠ 0 := by
      left; rw [herr]; simp
    refine ⟨env.sdkErrorString (sdkerrorsNew
        (SendMsgWithKey env src (faucetMsg env fromKey (fr.addr env) amount)
          info.name).1.1.Codespace
        (SendMsgWithKey env src (faucetMsg env fromKey (fr.addr env) amount)
          info.name).1.1.Code
        (SendMsgWithKey env src (faucetMsg env fromKey (fr.addr env) amount)
          info.name).1.1.RawLog) ++ "\n", ?_⟩
    rw [FaucetHandler_of_admitted env src fromKey amount byt fr tSince tNow hu hc hadm,
      faucetSend_with_key env src fromKey (fr.addr env) amount info hk, if_pos hfail,
      ← String.append_assoc]
    rfl

/-- Instance of C9 as amended: the keybase does not hold the faucet key. -/
theorem send_failure_text_witness :
    sampleEnv.unmarshal sampleBody = .ok ⟨"test-1", "cosmos1abc"⟩ ∧
    (checkAddress noKeyEnv sampleChain "cosmos1abc" 100 100).err = none ∧
    noKeyEnv.keyByAddress [9] = .error "key not found" ∧
    (FaucetHandler noKeyEnv sampleChain [9] sampleCoin (.ok sampleBody) 100 100).response
      = respondWithError 500 "key not found" :=
  ⟨rfl, by decide, rfl,
    (send_failure_text noKeyEnv sampleChain [9] sampleCoin sampleBody
      ⟨"test-1", "cosmos1abc"⟩ 100 100 rfl rfl (by decide)).1 "key not found" rfl⟩

/-- Counterexample to C9 as stated: with an unreachable node `SendMsgWithKey`
returns the error `connection refused`, and the handler answers 500 with the text
`failed to send transaction: ` and a newline, in which the underlying message
does not occur; with the faucet key missing the handler answers 500 with the
text `key not found`, in which the generic failure text does not occur. -/
theorem underlying_error_not_in_text :
    (SendMsgWithKey unreachableEnv sampleChain
      (faucetMsg unreachableEnv [9] (FaucetRequest.addr unreachableEnv ⟨"test-1", "cosmos1abc"⟩)
          sampleCoin) "faucet").1 = (TxResponse.zero, some "connection refused") ∧
    (FaucetHandler unreachableEnv sampleChain [9] sampleCoin (.ok sampleBody) 100 100).response
      = respondWithError 500 "failed to send transaction: \n" ∧
    ¬ containsText "failed to send transaction: \n" "connection refused" ∧
    noKeyEnv.keyByAddress [9] = .error "key not found" ∧
    (FaucetHandler noKeyEnv sampleChain [9] sampleCoin (.ok sampleBody) 100 100).response
      = respondWithError 500 "key not found" ∧
    ¬ containsText "key not found" "failed to send transaction" := by
  refine ⟨rfl, by decide, by decide, rfl, by decide, by decide⟩

/-- A 500 answer to a decoded request comes after validation and admission,
from a failing `faucetSend`. -/
theorem internal_error_only_after_admission (env : Env) (src : Chain)
    (fromKey : AccAddress) (amount : Coin) (byt : String) (fr : FaucetRequest)
    (tSince tNow : Int) (hu : env.unmarshal byt = .ok fr)
    (h500 : (FaucetHandler env src fromKey amount (.ok byt) tSince tNow).response.status
      = 500) :
    fr.ChainID = src.ChainID ∧ (checkAddress env src fr.Address tSince tNow).err = none ∧
    ∃ e tr, faucetSend env src fromKey (fr.addr env) amount = (some e, tr) := by
  by_cases hc : fr.ChainID = src.ChainID
  · cases he : (checkAddress env src fr.Address tSince tNow).err with
    | some e =>
      exfalso
      rw [FaucetHandler_limited env src fromKey amount byt fr tSince tNow e hu hc he] at h500
      have : (429 : Nat) = 500 := h500
      omega
    | none =>
      refine ⟨hc, rfl, ?_⟩
      rw [FaucetHandler_of_admitted env src fromKey amount byt fr tSince tNow hu hc he] at h500
      rcases hs : faucetSend env src fromKey (fr.addr env) amount with ⟨_ | e, tr⟩
      · exfalso
        rw [hs] at h500
        have : (201 : Nat) = 500 := h500
        omega
      · exact ⟨e, tr, rfl⟩
  · exfalso
    rw [FaucetHandler_wrong_chain env src fromKey amount byt fr tSince tNow hu hc] at h500
    have : (400 : Nat) = 500 := h500
    omega

/-- A valid request for an address whose entry is less than 5 minutes old is
answered 429; the chain is unchanged and nothing is built or broadcast. -/
theorem FaucetHandler_within_window (env : Env) (src : Chain) (fromKey : AccAddress)
    (amount : Coin) (byt : String) (fr : FaucetRequest) (t t2 tNow2 : Int)
    (hu : env.unmarshal byt = .ok fr) (hc : fr.ChainID = src.ChainID)
    (hentry : src.faucetAddrs fr.Address = some t) (hlt : t2 - t < 300000000000) :
    (FaucetHandler env src fromKey amount (.ok byt) t2 tNow2).response.status = 429 ∧
    (FaucetHandler env src fromKey amount (.ok byt) t2 tNow2).chain = src ∧
    (FaucetHandler env src fromKey amount (.ok byt) t2 tNow2).trace.any Event.isTx = false := by
  have hrec := checkAddress_of_recent env src fr.Address t2 tNow2 t hentry hlt
  have herr : (checkAddress env src fr.Address t2 tNow2).err
      = some (fr.Address ++ " has requested funds within the last "
        ++ env.durationString faucetTimeout ++ ", wait "
        ++ env.durationString (durationSub faucetTimeout (timeSince t2 t))
        ++ " before trying again") := by rw [hrec]
  rw [FaucetHandler_limited env src fromKey amount byt fr t2 tNow2 _ hu hc herr, hrec]
  exact ⟨rfl, rfl, rfl⟩

/-- C10: when a valid request is answered 500, `checkAddress` had admitted it
and recorded the clock reading for the address before any step of the send
(the record precedes every send event in the trace); the chain the handler
leaves still holds that timestamp, and a repeat request for the same address
less than 5 minutes later is answered 429, with nothing built or broadcast. -/
theorem cooldown_consumed_on_failed_send (env : Env) (src : Chain) (fromKey : AccAddress)
    (amount : Coin) (byt : String) (fr : FaucetRequest) (tSince tNow : Int)
    (hu : env.unmarshal byt = .ok fr)
    (h500 : (FaucetHandler env src fromKey amount (.ok byt) tSince tNow).response.status
      = 500) :
    (checkAddress env src fr.Address tSince tNow).err = none ∧
    (FaucetHandler env src fromKey amount (.ok byt) tSince tNow).chain.faucetAddrs fr.Address
      = some tNow ∧
    (∃ e tr, faucetSend env src fromKey (fr.addr env) amount = (some e, tr) ∧
      (FaucetHandler env src fromKey amount (.ok byt) tSince tNow).trace
        = [Event.log "handling faucet request...", Event.record fr.Address tNow,
            Event.useSDKContext] ++ tr ++ [Event.logError e]) ∧
    (∀ (byt2 : String) (fr2 : FaucetRequest) (t2 tNow2 : Int),
      env.unmarshal byt2 = .ok fr2 → fr2.ChainID = src.ChainID → fr2.Address = fr.Address →
      tNow ≤ t2 → t2 < tNow + 300000000000 →
      (FaucetHandler env (FaucetHandler env src fromKey amount (.ok byt) tSince tNow).chain
        fromKey amount (.ok byt2) t2 tNow2).response.status = 429 ∧
      (FaucetHandler env (FaucetHandler env src fromKey amount (.ok byt) tSince tNow).chain
        fromKey amount (.ok byt2) t2 tNow2).trace.any Event.isTx = false) := by
  obtain ⟨hc, hadm, e, tr, hs⟩ :=
    internal_error_only_after_admission env src fromKey amount byt fr tSince tNow hu h500
  have hres := FaucetHandler_of_admitted env src fromKey amount byt fr tSince tNow hu hc hadm
  rw [hs] at hres
  have hchain : (FaucetHandler env src fromKey amount (.ok byt) tSince tNow).chain
      = src.setAddr fr.Address tNow := by rw [hres]
  refine ⟨hadm, ?_, ⟨e, tr, hs, by rw [hres]⟩, ?_⟩
  · rw [hchain]; exact setAddr_same src fr.Address tNow
  · intro byt2 fr2 t2 tNow2 hu2 hc2 ha h1 h2
    rw [hchain]
    have hentry : (src.setAddr fr.Address tNow).faucetAddrs fr2.Address = some tNow := by
      rw [ha]; exact setAddr_same src fr.Address tNow
    have hw := FaucetHandler_within_window env (src.setAddr fr.Address tNow) fromKey amount
      byt2 fr2 tNow t2 tNow2 hu2 hc2 hentry (by omega)
    exact ⟨hw.1, hw.2.2⟩

/-- Instance of C10: the node is unreachable at reading 100 and the request is
repeated at reading 150. -/
theorem cooldown_consumed_on_failed_send_witness :
    unreachableEnv.unmarshal sampleBody = .ok ⟨"test-1", "cosmos1abc"⟩ ∧
    (FaucetHandler unreachableEnv sampleChain [9] sampleCoin (.ok sampleBody) 100 100
      ).response.status = 500 ∧
    (FaucetHandler unreachableEnv sampleChain [9] sampleCoin (.ok sampleBody) 100 100
      ).chain.faucetAddrs "cosmos1abc" = some 100 ∧
    (FaucetHandler unreachableEnv
      (FaucetHandler unreachableEnv sampleChain [9] sampleCoin (.ok sampleBody) 100 100).chain
      [9] sampleCoin (.ok sampleBody) 150 150).response.status = 429 :=
  have h := cooldown_consumed_on_failed_send unreachableEnv sampleChain [9] sampleCoin
    sampleBody ⟨"test-1", "cosmos1abc"⟩ 100 100 rfl (by decide)
  ⟨rfl, by decide, h.2.1,
    (h.2.2.2 sampleBody ⟨"test-1", "cosmos1abc"⟩ 150 150 rfl rfl rfl
      (by decide) (by decide)).1⟩

end Relayer
